import Mathlib

/-!
Shallow embedding of the RootSphere recommendation decision-fusion engine.

Sources embedded:
- `src/backend/api/recommendation.py` (`generate_recommendation_logic` and its
  module-level threshold tables),
- `src/backend/api/crop_nutrient_standards.py` (`get_crop_requirements`,
  `check_nutrient_adequacy`).

Modelling conventions:
- Python floats are modelled as rationals (`ℚ`); every constant in the source
  is an exactly representable decimal, and Python `round(x, n)` / `f"{x:.nf}"`
  round-half-to-even is embedded as exact half-even rounding on `ℚ`.
- `datetime` values are modelled as naive UTC timestamps in seconds (`ℤ`);
  `timedelta(hours=24)` is `24 * 3600` seconds.
- `Optional[T]` is `Option T`; Python truthiness of an optional is
  `Option.isSome`, of a list is non-emptiness.
- The soil classifier (`ml/model.py`, a joblib artifact external to the pure
  logic) is passed in as an opaque labelling function, exactly as the engine
  consumes it: its string result is used only via substring tests and
  rationale text.
-/

namespace RootSphere

/-! ### Python string-membership (`pat in s`) on character lists -/

/-- Does `s` start with `pat`? Mirrors substring matching at one position. -/
def charsHavePre : List Char → List Char → Bool
  | [], _ => true
  | _ :: _, [] => false
  | p :: ps, c :: cs => p == c && charsHavePre ps cs

/-- Does `pat` occur contiguously inside `s`? -/
def charsContain : List Char → List Char → Bool
  | [], pat => charsHavePre pat []
  | c :: rest, pat => charsHavePre pat (c :: rest) || charsContain rest pat

/-- Python `pat in s` for strings. -/
def strContains (s pat : String) : Bool :=
  charsContain s.data pat.data

/-- Python `s.lower()` (character-wise; the keys involved are ASCII). -/
def pyLower (s : String) : String :=
  String.mk (s.data.map Char.toLower)

/-- Python `s.capitalize()`: first character upper-cased, the rest
lower-cased. -/
def pyCapitalize (s : String) : String :=
  match s.data with
  | [] => ""
  | c :: rest => String.mk (Char.toUpper c :: rest.map Char.toLower)

/-! ### Python numeric rounding and formatting on `ℚ` -/

/-- Round to the nearest integer, ties to even (Python `round` / `format`). -/
def roundHalfEven (x : ℚ) : ℤ :=
  let f := Int.floor x
  let frac := x - (f : ℚ)
  if frac < 1/2 then f
  else if frac > 1/2 then f + 1
  else if f % 2 = 0 then f else f + 1

/-- Python `round(x, 2)`. -/
def round2 (x : ℚ) : ℚ :=
  ((roundHalfEven (x * 100) : ℤ) : ℚ) / 100

/-- `num / den` rounded to the nearest integer, ties to even (`den > 0`):
the integer-level counterpart of `roundHalfEven`, used where string rendering
must evaluate. -/
def halfEvenRound (num : ℤ) (den : ℕ) : ℤ :=
  let f := Int.fdiv num den
  let r2 := 2 * (num - f * den)
  if r2 < den then f
  else if r2 > den then f + 1
  else if f % 2 = 0 then f else f + 1

/-- Left-pad a digit string with zeros to width `d`. -/
def padZeros (d : Nat) (s : String) : String :=
  if s.length ≥ d then s else String.mk (List.replicate (d - s.length) '0') ++ s

/-- Python `f"{x:.df}"`: fixed-point rendering with `d` digits; the value
rounded half-to-even at the `d`-th digit is `halfEvenRound (num * 10^d) den`. -/
def fmtFixed (d : Nat) (q : ℚ) : String :=
  let r := halfEvenRound (q.num * (10 : ℤ) ^ d) q.den
  let sign := if r < 0 then "-" else ""
  let a := r.natAbs
  if d = 0 then sign ++ toString a
  else sign ++ toString (a / 10 ^ d) ++ "." ++ padZeros d (toString (a % 10 ^ d))

/-- Exponent of `p` in `n`, with explicit fuel (`n` itself suffices). -/
def countFactor (p : Nat) : Nat → Nat → Nat
  | 0, _ => 0
  | fuel + 1, n => if n % p = 0 ∧ p ≤ n then countFactor p fuel (n / p) + 1 else 0

/-- Python `f"{x}"` on a float holding an exact decimal: shortest decimal
rendering with at least one fractional digit (`repr(45.0) = "45.0"`). -/
def pyFloatRepr (q : ℚ) : String :=
  let den := q.den
  let d := max 1 (max (countFactor 2 den den) (countFactor 5 den den))
  fmtFixed d q

/-! ### Dictionary lookup (`dict.get(key, default)`) as association lists -/

/-- Python `d.get(key, default)` over an insertion-ordered dict. -/
def dictGet {α : Type} (d : List (String × α)) (key : String) (dflt : α) : α :=
  match d.find? (fun kv => kv.1 == key) with
  | some kv => kv.2
  | none => dflt

/-! ### Data model (`src/backend/api/schemas.py`) -/

structure Location where
  lat : ℚ
  lon : ℚ
deriving Repr, DecidableEq

structure WeatherPoint where
  ts : ℤ
  temp_c : ℚ
  humidity_pct : ℚ
  rainfall_mm : ℚ
deriving Repr, DecidableEq

structure WeatherSummary where
  ts : ℤ
  temp_c : ℚ
  humidity_pct : ℚ
  rainfall_mm_24h : ℚ
  forecast_72h : List WeatherPoint
deriving Repr, DecidableEq

structure ImageSummary where
  id : String
  ts : ℤ
  source : String
  rgb_url : String
  notes : Option String
deriving Repr, DecidableEq

structure SensorSummary where
  ts : ℤ
  moisture : ℚ
  ph : ℚ
  n : ℚ
  p : ℚ
  k : ℚ
deriving Repr, DecidableEq

structure FieldSnapshotV1 where
  field_id : String
  farmer_id : String
  crop : String
  growth_stage : String
  location : Location
  snapshot_ts : ℤ
  sensor_readings : Option SensorSummary
  weather : Option WeatherSummary
  images : List ImageSummary
  missing_data : List String
deriving Repr, DecidableEq

structure IrrigationAction where
  action : String
  liters_per_acre : ℚ
  timing : String
deriving Repr, DecidableEq

structure FertilizerAction where
  action : String
  n_kg_acre : ℚ
  p_kg_acre : ℚ
  k_kg_acre : ℚ
  timing : String
deriving Repr, DecidableEq

structure RecommendationResponse where
  field_id : String
  irrigation : IrrigationAction
  fertilizer : FertilizerAction
  data_completeness : ℚ
  why : List String
  ai_analysis : String
  ai_forecast : Option (List ℚ)
  ai_history : Option (List ℚ)
  risk_alert : Option String
  snapshot_used : FieldSnapshotV1
deriving Repr, DecidableEq

/-! ### Threshold tables (`recommendation.py` lines 5-36) -/

def MOISTURE_THRESHOLDS : List (String × ℚ) :=
  [("rice", 50), ("wheat", 30), ("maize", 25)]

def IRRIGATION_LITERS : List (String × ℚ) :=
  [("rice", 1000), ("wheat", 500), ("maize", 400)]

structure NPK where
  n : ℚ
  p : ℚ
  k : ℚ
deriving Repr, DecidableEq

/-- `FERTILIZER_TARGETS["default"]["default"]`. -/
def FERTILIZER_TARGETS_default_default : NPK := ⟨40, 30, 20⟩

/-- `FERTILIZER_TARGETS["default"]`. -/
def FERTILIZER_TARGETS_default : List (String × NPK) :=
  [("default", FERTILIZER_TARGETS_default_default)]

def FERTILIZER_TARGETS : List (String × List (String × NPK)) :=
  [("wheat", [("vegetative", ⟨50, 30, 20⟩), ("flowering", ⟨30, 40, 30⟩)]),
   ("rice", [("vegetative", ⟨60, 30, 30⟩), ("flowering", ⟨40, 40, 40⟩)]),
   ("default", FERTILIZER_TARGETS_default)]

/-! ### Nutrient standards (`crop_nutrient_standards.py`) -/

structure CropRequirements where
  n_min : ℤ
  p_min : ℤ
  k_min : ℤ
  ph_low : ℚ
  ph_high : ℚ
  moisture_min : ℤ
  description : String
  sources : List String
deriving Repr, DecidableEq

def CROP_NUTRIENT_REQUIREMENTS : List (String × List (String × CropRequirements)) :=
  [("rice",
    [("vegetative",
      { n_min := 280, p_min := 10, k_min := 120, ph_low := mkRat 11 2, ph_high := 7,
        moisture_min := 40,
        description := "Rice (Vegetative Stage) - High N, moderate P/K requirements",
        sources := ["TNAU Crop Production Guide: 150 kg N, 50 kg P₂O₅, 50 kg K₂O/ha",
                    "ICAR Soil Health Card Manual - Nutrient Ranges"] }),
     ("flowering",
      { n_min := 200, p_min := 15, k_min := 140, ph_low := mkRat 11 2, ph_high := 7,
        moisture_min := 50,
        description := "Rice (Flowering/Grain Filling) - Moderate N, increased P/K",
        sources := ["TNAU Agritech Portal", "NFSM Guidelines"] })]),
   ("wheat",
    [("vegetative",
      { n_min := 280, p_min := 10, k_min := 110, ph_low := 6, ph_high := mkRat 15 2,
        moisture_min := 25,
        description := "Wheat (Vegetative Stage) - Moderate to high N requirement",
        sources := ["TNAU: 80 kg N, 40 kg P₂O₅, 40 kg K₂O/ha (rainfed)",
                    "ICAR RDF: 150 kg N, 60 kg P₂O₅, 40 kg K₂O/ha (irrigated)",
                    "HP Agriculture Dept: 120 kg N, 60 kg P₂O₅, 30 kg K/ha"] }),
     ("flowering",
      { n_min := 200, p_min := 12, k_min := 120, ph_low := 6, ph_high := mkRat 15 2,
        moisture_min := 30,
        description := "Wheat (Flowering/Grain Development)",
        sources := ["IIWBR Late-Sown Guidelines"] })]),
   ("maize",
    [("vegetative",
      { n_min := 300, p_min := 12, k_min := 120, ph_low := mkRat 11 2, ph_high := mkRat 15 2,
        moisture_min := 30,
        description := "Maize (Vegetative Stage) - Very high N requirement",
        sources := ["TNAU: 135 kg N, 62.5 kg P₂O₅, 50 kg K₂O/ha (varieties)",
                    "TNAU: 250 kg N, 75 kg P₂O₅, 75 kg K₂O/ha (hybrids)",
                    "FAO: 90-150 kg N/ha for late-maturing varieties"] }),
     ("flowering",
      { n_min := 250, p_min := 15, k_min := 140, ph_low := mkRat 11 2, ph_high := mkRat 15 2,
        moisture_min := 35,
        description := "Maize (Flowering/Grain Filling) - High N/K for yield",
        sources := ["FAO Fertilizer Guidelines", "TNAU Agritech"] })])]

/-- `DEFAULT_REQUIREMENTS["default"]`. -/
def DEFAULT_REQUIREMENTS_default : CropRequirements :=
  { n_min := 280, p_min := 10, k_min := 120, ph_low := 6, ph_high := mkRat 15 2,
    moisture_min := 30,
    description := "General crop requirements (based on medium fertility needs)",
    sources := ["ICAR General Guidelines"] }

/-- `get_crop_requirements` (`crop_nutrient_standards.py` lines 99-121). -/
def get_crop_requirements (crop : String) (growth_stage : String) : CropRequirements :=
  let crop := pyLower crop
  let stage := pyLower growth_stage
  match CROP_NUTRIENT_REQUIREMENTS.find? (fun kv => kv.1 == crop) with
  | some cropEntry =>
    match cropEntry.2.find? (fun kv => kv.1 == stage) with
    | some stageEntry => stageEntry.2
    | none => dictGet cropEntry.2 "vegetative" DEFAULT_REQUIREMENTS_default
  | none => DEFAULT_REQUIREMENTS_default

structure AdequacyResult where
  n_adequate : Bool
  p_adequate : Bool
  k_adequate : Bool
  ph_adequate : Bool
  moisture_adequate : Bool
  deficiencies : List String
  requirements : CropRequirements
deriving Repr, DecidableEq

/-- `check_nutrient_adequacy` (`crop_nutrient_standards.py` lines 123-169). -/
def check_nutrient_adequacy (crop growth_stage : String)
    (n p k ph moisture : ℚ) : AdequacyResult :=
  let req := get_crop_requirements crop growth_stage
  let n_adequate : Bool := decide (n ≥ (req.n_min : ℚ))
  let p_adequate : Bool := decide (p ≥ (req.p_min : ℚ))
  let k_adequate : Bool := decide (k ≥ (req.k_min : ℚ))
  let ph_adequate : Bool := decide (req.ph_low ≤ ph ∧ ph ≤ req.ph_high)
  let moisture_adequate : Bool := decide (moisture ≥ (req.moisture_min : ℚ))
  let deficiencies : List String :=
    (if !n_adequate then
      ["Nitrogen is low (" ++ fmtFixed 0 n ++ " vs " ++ toString req.n_min ++ " kg/ha)"]
     else []) ++
    (if !p_adequate then
      ["Phosphorus is low (" ++ fmtFixed 0 p ++ " vs " ++ toString req.p_min ++ " kg/ha)"]
     else []) ++
    (if !k_adequate then
      ["Potassium is low (" ++ fmtFixed 0 k ++ " vs " ++ toString req.k_min ++ " kg/ha)"]
     else []) ++
    (if !ph_adequate then
      (if ph < req.ph_low then ["Soil is too acidic (pH " ++ fmtFixed 1 ph ++ ")"]
       else ["Soil is too alkaline (pH " ++ fmtFixed 1 ph ++ ")"])
     else []) ++
    (if !moisture_adequate then
      ["Soil moisture is low (" ++ fmtFixed 0 moisture ++ "%)"]
     else [])
  { n_adequate := n_adequate, p_adequate := p_adequate, k_adequate := k_adequate,
    ph_adequate := ph_adequate, moisture_adequate := moisture_adequate,
    deficiencies := deficiencies, requirements := req }

/-! ### Decision fusion engine (`recommendation.py` lines 40-257), split into
its four sequential sections; `generate_recommendation_logic` composes them in
the source's order. -/

/-- Section 1 of `generate_recommendation_logic` (lines 42-61): the
data-completeness score and the rationale lines it appends. -/
def dataCompletenessCalc (snapshot : FieldSnapshotV1) : ℚ × List String :=
  let base : ℚ := 0.6
  let s1 : ℚ × List String :=
    if snapshot.sensor_readings.isSome then (base + 0.1, [])
    else (base - 0.2, ["⚠️ Missing sensor readings (critical data)."])
  let s2 : ℚ × List String :=
    if snapshot.weather.isSome then (s1.1 + 0.1, s1.2)
    else (s1.1, s1.2 ++ ["⚠️ Missing weather data (past 24h)."])
  let dc := if !snapshot.images.isEmpty then s2.1 + 0.1 else s2.1
  (round2 (max 0 (min 1 dc)), s2.2)

/-- Lines 78-97: sum of `forecast_72h` rainfall at timestamps within 24 h of
the snapshot, plus the degradation rationale when no forecast exists. -/
def rainfallNext24h (snapshot : FieldSnapshotV1) : ℚ × List String :=
  match snapshot.weather with
  | some w =>
    if w.forecast_72h ≠ [] then
      let limit_ts := snapshot.snapshot_ts + 24 * 3600
      (w.forecast_72h.foldl
        (fun acc pt => if pt.ts ≤ limit_ts then acc + pt.rainfall_mm else acc) 0,
       [])
    else (0, ["No weather forecast available; assuming 0 rain."])
  | none => (0, ["No weather forecast available; assuming 0 rain."])

/-- Lines 102-106: `(ai_rain_24h, ai_rain_48h)` from the raw LSTM forecast.
Python truthiness of the list (non-emptiness) is subsumed by the length
test. -/
def extractModelRain (lstm_forecast : Option (List ℚ)) : ℚ × ℚ :=
  match lstm_forecast with
  | some l => if 2 ≤ l.length then (l.headD 0, (l.take 2).sum) else (0, 0)
  | none => (0, 0)

structure IrrigationResult where
  action : String
  liters : ℚ
  timing : String
  why : List String
  risk_alert : Option String
deriving Repr, DecidableEq

/-- Section 2 of `generate_recommendation_logic` (lines 66-147): irrigation
decision, the rationale lines it appends, and the hybrid-logic risk alert. -/
def irrigationSection (snapshot : FieldSnapshotV1)
    (lstm_forecast : Option (List ℚ)) : IrrigationResult :=
  match snapshot.sensor_readings with
  | none =>
    { action := "UNKNOWN", liters := 0, timing := "unknown",
      why := ["Cannot determine irrigation need without soil moisture."],
      risk_alert := none }
  | some sr =>
    let crop := pyLower snapshot.crop
    let moisture := sr.moisture
    let thresh := dictGet MOISTURE_THRESHOLDS crop 30
    let rain := rainfallNext24h snapshot
    let rainfall_next_24h := rain.1
    if moisture < thresh then
      let mr := extractModelRain lstm_forecast
      let ai_rain_24h := mr.1
      let ai_rain_48h := mr.2
      let risk_alert : Option String :=
        if |rainfall_next_24h - ai_rain_24h| > 5 then
          some "Uncertain weather: Forecasts disagree significantly."
        else if rainfall_next_24h < 1 ∧ ai_rain_48h > 10 then
          some "Warning: Heavy rain predicted soon."
        else none
      let will_rain_today := rainfall_next_24h > 2 ∨ ai_rain_24h > 3
      let storm_approaching := rainfall_next_24h < 2 ∧ ai_rain_48h > 8
      let arb : String × ℚ × String × List String :=
        if will_rain_today then
          let source := if rainfall_next_24h > 2 then "API" else "AI Model"
          ("DELAY", 0, "after rain", ["Rain predicted by " ++ source ++ " - save water"])
        else if storm_approaching then
          ("DELAY", 0, "until after storm", ["Storm approaching in 48h - wait"])
        else
          ("IRRIGATE_NOW", dictGet IRRIGATION_LITERS crop 400, "now",
           ["Weather is clear - safe to irrigate"])
      { action := arb.1, liters := arb.2.1, timing := arb.2.2.1,
        why := rain.2 ++ arb.2.2.2 ++
          (match risk_alert with | some r => [r] | none => []),
        risk_alert := risk_alert }
    else
      { action := "NO_ACTION", liters := 0, timing := "unknown",
        why := rain.2 ++
          ["Moisture " ++ pyFloatRepr moisture ++ "% is sufficient (>= " ++
           pyFloatRepr thresh ++ "%)."],
        risk_alert := none }

structure FertilizerResult where
  action : String
  n_rec : ℚ
  p_rec : ℚ
  k_rec : ℚ
  timing : String
  ai_analysis : String
  why : List String
deriving Repr, DecidableEq

/-- Section 3 of `generate_recommendation_logic` (lines 149-232): fertilizer
decision (scientific-primary, ML-secondary) and its rationale lines. The soil
classifier is the `classifierPredict` argument. -/
def fertilizerSection (classifierPredict : ℚ → ℚ → ℚ → ℚ → ℚ → String → String)
    (snapshot : FieldSnapshotV1) : FertilizerResult :=
  match snapshot.sensor_readings with
  | none =>
    { action := "NO_ACTION", n_rec := 0, p_rec := 0, k_rec := 0, timing := "N/A",
      ai_analysis := "ML Model Unavailable",
      why := ["Cannot determine fertilizer needs without soil test."] }
  | some sr =>
    let crop := pyLower snapshot.crop
    let stage := pyLower snapshot.growth_stage
    let adequacy := check_nutrient_adequacy crop stage sr.n sr.p sr.k sr.ph sr.moisture
    let ai_analysis := classifierPredict sr.n sr.p sr.k sr.ph sr.moisture (pyCapitalize crop)
    let has_deficiency := !adequacy.deficiencies.isEmpty
    if has_deficiency then
      let whyDefs := adequacy.deficiencies.filter (fun m =>
        strContains m "Nitrogen" || strContains m "Phosphorus" ||
        strContains m "Potassium" || strContains m "pH")
      let sources_str := String.intercalate "; " (adequacy.requirements.sources.take 1)
      let ml_agrees :=
        (strContains ai_analysis "Low Nitrogen" && !adequacy.n_adequate) ||
        (strContains ai_analysis "Low Phosphorus" && !adequacy.p_adequate) ||
        (strContains ai_analysis "Low Potassium" && !adequacy.k_adequate)
      let whyMl :=
        if ml_agrees then ["Digital check: Confirmed (" ++ ai_analysis ++ ")"]
        else ["Digital check: Suggests \x27" ++ ai_analysis ++ "\x27 - consider retesting"]
      let targets :=
        dictGet (dictGet FERTILIZER_TARGETS crop FERTILIZER_TARGETS_default)
          stage FERTILIZER_TARGETS_default_default
      { action := "APPLY", n_rec := targets.n, p_rec := targets.p, k_rec := targets.k,
        timing := "next suitable day", ai_analysis := ai_analysis,
        why := whyDefs ++ ["As per: " ++ sources_str] ++ whyMl }
    else
      let whyNote :=
        if strContains ai_analysis "Low" && !has_deficiency then
          ["Note: Digital check found potential issue - consider retesting"]
        else []
      { action := "NO_ACTION", n_rec := 0, p_rec := 0, k_rec := 0, timing := "N/A",
        ai_analysis := ai_analysis,
        why := ["Soil is healthy for " ++ pyCapitalize crop ++ " (" ++ stage ++ " stage)",
                "Digital check: " ++ ai_analysis] ++ whyNote }

/-- `generate_recommendation_logic` (`recommendation.py` lines 40-257).
The nondeterministic `ts = datetime.utcnow()` response field is omitted; every
other response field is constructed exactly as in the source, and the
rationale list is assembled in the source's append order: completeness notes,
then irrigation notes, then fertilizer notes. -/
def generate_recommendation_logic
    (classifierPredict : ℚ → ℚ → ℚ → ℚ → ℚ → String → String)
    (snapshot : FieldSnapshotV1)
    (lstm_forecast : Option (List ℚ))
    (ai_history : Option (List ℚ)) : RecommendationResponse :=
  let dcPair := dataCompletenessCalc snapshot
  let irr := irrigationSection snapshot lstm_forecast
  let fert := fertilizerSection classifierPredict snapshot
  { field_id := snapshot.field_id
    irrigation := { action := irr.action, liters_per_acre := irr.liters,
                    timing := irr.timing }
    fertilizer := { action := fert.action, n_kg_acre := fert.n_rec,
                    p_kg_acre := fert.p_rec, k_kg_acre := fert.k_rec,
                    timing := fert.timing }
    data_completeness := dcPair.1
    why := dcPair.2 ++ irr.why ++ fert.why
    ai_analysis := fert.ai_analysis
    ai_forecast := lstm_forecast
    ai_history := ai_history
    risk_alert := irr.risk_alert
    snapshot_used := snapshot }

/-! ### Spec-side definitions (for refinement claims) -/

/-- Modelled from the spec: the data-completeness score as a function of the
three presence booleans alone — start at 0.6, add 0.1 if sensor data is
present else subtract 0.2, add 0.1 if weather data is present (no penalty
otherwise), add 0.1 if any image exists, clamp to `[0, 1]`, round to
2 decimals. -/
def completeness_spec (sensor weather image : Bool) : ℚ :=
  let s1 : ℚ := if sensor then 0.6 + 0.1 else 0.6 - 0.2
  let s2 : ℚ := if weather then s1 + 0.1 else s1
  let s3 : ℚ := if image then s2 + 0.1 else s2
  round2 (max 0 (min 1 s3))

/-- Modelled from the spec: the three-tier nutrient-threshold resolution —
case-fold both keys; return the exact crop+stage entry when present; else the
crop's "vegetative" entry when the crop is known; else the global default. -/
def lookup_nutrient_thresholds_spec (crop stage : String) : CropRequirements :=
  let c := pyLower crop
  let st := pyLower stage
  match CROP_NUTRIENT_REQUIREMENTS.find? (fun kv => kv.1 == c) with
  | some cropEntry =>
    match cropEntry.2.find? (fun kv => kv.1 == st) with
    | some stageEntry => stageEntry.2
    | none =>
      match cropEntry.2.find? (fun kv => kv.1 == "vegetative") with
      | some veg => veg.2
      | none => DEFAULT_REQUIREMENTS_default
  | none => DEFAULT_REQUIREMENTS_default

/-! ### Concrete inputs used by witnesses and counterexamples -/

/-- A classifier stub returning the "Model Not Available" sentinel. -/
def classifierUnavailable : ℚ → ℚ → ℚ → ℚ → ℚ → String → String :=
  fun _ _ _ _ _ _ => "Model Not Available"

/-- A classifier stub returning the "Analysis Failed" sentinel. -/
def classifierFailed : ℚ → ℚ → ℚ → ℚ → ℚ → String → String :=
  fun _ _ _ _ _ _ => "Analysis Failed"

/-- A wheat snapshot with a healthy sensor reading and no weather data. -/
def snapHealthyWheat : FieldSnapshotV1 :=
  { field_id := "field-1", farmer_id := "farmer-1", crop := "Wheat",
    growth_stage := "Vegetative", location := ⟨11, 77⟩, snapshot_ts := 0,
    sensor_readings := some { ts := 0, moisture := 80, ph := 7, n := 300, p := 15, k := 120 },
    weather := none, images := [], missing_data := [] }

/-- A wheat snapshot with a dry sensor reading and no weather data. -/
def snapDryWheat : FieldSnapshotV1 :=
  { field_id := "field-2", farmer_id := "farmer-1", crop := "Wheat",
    growth_stage := "Vegetative", location := ⟨11, 77⟩, snapshot_ts := 0,
    sensor_readings := some { ts := 0, moisture := 10, ph := 7, n := 300, p := 15, k := 120 },
    weather := none, images := [], missing_data := [] }

/-- A dry wheat snapshot whose API forecast predicts 6 mm within 24 h. -/
def snapDryWheatApiRain : FieldSnapshotV1 :=
  { field_id := "field-3", farmer_id := "farmer-1", crop := "Wheat",
    growth_stage := "Vegetative", location := ⟨11, 77⟩, snapshot_ts := 0,
    sensor_readings := some { ts := 0, moisture := 10, ph := 7, n := 300, p := 15, k := 120 },
    weather := some { ts := 0, temp_c := 30, humidity_pct := 60, rainfall_mm_24h := 0,
                      forecast_72h := [{ ts := 3600, temp_c := 30, humidity_pct := 60,
                                         rainfall_mm := 6 }] },
    images := [], missing_data := [] }

/-- A snapshot with no sensor reading at all (weather present). -/
def snapNoSensor : FieldSnapshotV1 :=
  { field_id := "field-4", farmer_id := "farmer-1", crop := "Rice",
    growth_stage := "Flowering", location := ⟨11, 77⟩, snapshot_ts := 0,
    sensor_readings := none,
    weather := some { ts := 0, temp_c := 30, humidity_pct := 60, rainfall_mm_24h := 0,
                      forecast_72h := [] },
    images := [], missing_data := [] }

/-! ### Bridge lemmas: response fields in terms of the section functions -/

theorem gen_irrigation_eq (cp : ℚ → ℚ → ℚ → ℚ → ℚ → String → String)
    (s : FieldSnapshotV1) (f h : Option (List ℚ)) :
    (generate_recommendation_logic cp s f h).irrigation =
      { action := (irrigationSection s f).action,
        liters_per_acre := (irrigationSection s f).liters,
        timing := (irrigationSection s f).timing } := rfl

theorem gen_fertilizer_eq (cp : ℚ → ℚ → ℚ → ℚ → ℚ → String → String)
    (s : FieldSnapshotV1) (f h : Option (List ℚ)) :
    (generate_recommendation_logic cp s f h).fertilizer =
      { action := (fertilizerSection cp s).action,
        n_kg_acre := (fertilizerSection cp s).n_rec,
        p_kg_acre := (fertilizerSection cp s).p_rec,
        k_kg_acre := (fertilizerSection cp s).k_rec,
        timing := (fertilizerSection cp s).timing } := rfl

theorem gen_risk_eq (cp : ℚ → ℚ → ℚ → ℚ → ℚ → String → String)
    (s : FieldSnapshotV1) (f h : Option (List ℚ)) :
    (generate_recommendation_logic cp s f h).risk_alert =
      (irrigationSection s f).risk_alert := rfl

theorem gen_why_eq (cp : ℚ → ℚ → ℚ → ℚ → ℚ → String → String)
    (s : FieldSnapshotV1) (f h : Option (List ℚ)) :
    (generate_recommendation_logic cp s f h).why =
      (dataCompletenessCalc s).2 ++ (irrigationSection s f).why ++
        (fertilizerSection cp s).why := rfl

theorem gen_dc_eq (cp : ℚ → ℚ → ℚ → ℚ → ℚ → String → String)
    (s : FieldSnapshotV1) (f h : Option (List ℚ)) :
    (generate_recommendation_logic cp s f h).data_completeness =
      (dataCompletenessCalc s).1 := rfl

/-! ### Claim C9: model-side forecast pair derivation -/

/-- C9: the engine derives the model-side forecast pair from the raw 3-day
forecast list with `model_rain_24h` the first element and `model_rain_48h` the
sum of the first two elements (a cumulative 48-hour total); when the list is
absent (`none`) or has fewer than 2 elements, both values are 0.0. -/
theorem model_rain_extraction_c9 :
    (∀ l : List ℚ, 2 ≤ l.length →
        extractModelRain (some l) = (l.headD 0, l.headD 0 + (l.drop 1).headD 0)) ∧
    (∀ l : List ℚ, l.length < 2 → extractModelRain (some l) = (0, 0)) ∧
    extractModelRain none = (0, 0) := by
  refine ⟨?_, ?_, rfl⟩
  · intro l hl
    match l with
    | [] => simp at hl
    | [a] => simp at hl
    | a :: b :: rest => simp [extractModelRain]
  · intro l hl
    have hlt : ¬ 2 ≤ l.length := by omega
    simp [extractModelRain, hlt]

/-- Witness for C9 at concrete inputs. -/
theorem model_rain_extraction_c9_witness :
    extractModelRain (some [4, 5, 6]) = (4, 9) ∧
    extractModelRain (some [7]) = (0, 0) := by
  refine ⟨?_, model_rain_extraction_c9.2.1 [7] (by decide)⟩
  have h := model_rain_extraction_c9.1 [4, 5, 6] (by decide)
  simpa [show (4 : ℚ) + 5 = 9 by norm_num] using h

/-! ### Claim C6: missing sensor reading -/

/-- C6: with no sensor reading, regardless of weather data, the engine still
returns a recommendation whose irrigation action is UNKNOWN with a rationale
line about the missing moisture input and whose fertilizer action is NO_ACTION
with an explanatory rationale line; no error is raised (the embedded engine is
a total function). -/
theorem missing_sensor_c6 (cp : ℚ → ℚ → ℚ → ℚ → ℚ → String → String)
    (s : FieldSnapshotV1) (f h : Option (List ℚ))
    (hs : s.sensor_readings = none) :
    (generate_recommendation_logic cp s f h).irrigation.action = "UNKNOWN" ∧
    "Cannot determine irrigation need without soil moisture." ∈
      (generate_recommendation_logic cp s f h).why ∧
    (generate_recommendation_logic cp s f h).fertilizer.action = "NO_ACTION" ∧
    "Cannot determine fertilizer needs without soil test." ∈
      (generate_recommendation_logic cp s f h).why := by
  rw [gen_why_eq, gen_irrigation_eq, gen_fertilizer_eq]
  simp only [irrigationSection, fertilizerSection, hs]
  simp [List.mem_append]

/-- Witness for C6: a concrete sensorless snapshot (weather present). -/
theorem missing_sensor_c6_witness :
    (generate_recommendation_logic classifierUnavailable snapNoSensor none none).irrigation.action
      = "UNKNOWN" ∧
    "Cannot determine irrigation need without soil moisture." ∈
      (generate_recommendation_logic classifierUnavailable snapNoSensor none none).why ∧
    (generate_recommendation_logic classifierUnavailable snapNoSensor none none).fertilizer.action
      = "NO_ACTION" ∧
    "Cannot determine fertilizer needs without soil test." ∈
      (generate_recommendation_logic classifierUnavailable snapNoSensor none none).why :=
  missing_sensor_c6 classifierUnavailable snapNoSensor none none rfl


/-! ### Claim C5: data-completeness score -/

/-- Half-even rounding never goes below an integer lower bound. -/
theorem roundHalfEven_nonneg (x : ℚ) (hx : 0 ≤ x) : 0 ≤ roundHalfEven x := by
  simp only [roundHalfEven]
  have hf : (0 : ℤ) ≤ ⌊x⌋ := Int.floor_nonneg.mpr hx
  split_ifs <;> omega

/-- Half-even rounding never exceeds an integer upper bound. -/
theorem roundHalfEven_le_int (x : ℚ) (n : ℤ) (h : x ≤ (n : ℚ)) :
    roundHalfEven x ≤ n := by
  simp only [roundHalfEven]
  have hf : ⌊x⌋ ≤ n := by
    have h2 := Int.floor_mono h
    simpa using h2
  have hfrac : ⌊x⌋ = n → x - (⌊x⌋ : ℚ) ≤ 0 := by
    intro he
    rw [he]
    have : (n : ℚ) ≤ n := le_refl _
    linarith
  split_ifs with h1 h2 h3
  · exact hf
  · rcases lt_or_eq_of_le hf with h4 | h4
    · omega
    · exact absurd (hfrac h4) (by linarith)
  · exact hf
  · rcases lt_or_eq_of_le hf with h4 | h4
    · omega
    · have h5 := hfrac h4
      have h6 : (1 : ℚ) / 2 ≤ x - (⌊x⌋ : ℚ) := not_lt.mp h1
      linarith

/-- `round2` maps `[0, 1]` into `[0, 1]`. -/
theorem round2_mem_unit (y : ℚ) (h0 : 0 ≤ y) (h1 : y ≤ 1) :
    0 ≤ round2 y ∧ round2 y ≤ 1 := by
  unfold round2
  constructor
  · have hr := roundHalfEven_nonneg (y * 100) (by positivity)
    have : (0 : ℚ) ≤ ((roundHalfEven (y * 100) : ℤ) : ℚ) := by exact_mod_cast hr
    positivity
  · have hr := roundHalfEven_le_int (y * 100) 100 (by push_cast; linarith)
    rw [div_le_one (by norm_num : (0 : ℚ) < 100)]
    exact_mod_cast hr

/-- The data-completeness score is clamped to `[0, 1]` before rounding. -/
theorem dataCompletenessCalc_mem_unit (s : FieldSnapshotV1) :
    0 ≤ (dataCompletenessCalc s).1 ∧ (dataCompletenessCalc s).1 ≤ 1 := by
  unfold dataCompletenessCalc
  exact round2_mem_unit _ (le_max_left 0 _) (max_le (by norm_num) (min_le_left 1 _))

/-- C5: `data_completeness` equals the spec's computation (start at 0.6, add
0.1 if sensor data is present else subtract 0.2, add 0.1 if weather data is
present, add 0.1 if any image exists, clamp to `[0, 1]`, round to 2 decimals)
as a function of the three presence booleans alone; it is always in `[0, 1]`;
and it is exactly 0.7 when sensor data is present while weather and images
are absent. -/
theorem data_completeness_c5 (cp : ℚ → ℚ → ℚ → ℚ → ℚ → String → String)
    (s : FieldSnapshotV1) (f h : Option (List ℚ)) :
    (generate_recommendation_logic cp s f h).data_completeness =
      completeness_spec s.sensor_readings.isSome s.weather.isSome (!s.images.isEmpty) ∧
    0 ≤ (generate_recommendation_logic cp s f h).data_completeness ∧
    (generate_recommendation_logic cp s f h).data_completeness ≤ 1 ∧
    completeness_spec true false false = 0.7 := by
  have hdc : (dataCompletenessCalc s).1 =
      completeness_spec s.sensor_readings.isSome s.weather.isSome (!s.images.isEmpty) := by
    cases hsr : s.sensor_readings <;> cases hw : s.weather <;> cases hi : s.images <;>
      simp [dataCompletenessCalc, completeness_spec, hsr, hw, hi]
  have hb := dataCompletenessCalc_mem_unit s
  rw [gen_dc_eq, hdc] at *
  refine ⟨rfl, hb.1, hb.2, ?_⟩
  norm_num [completeness_spec, round2, roundHalfEven, min_def, max_def]

/-! ### Claim C10: zero liters / zero dose unless acting -/

/-- Liters are zero in every branch of the irrigation section other than
IRRIGATE_NOW. -/
theorem irrigationSection_zero_liters (s : FieldSnapshotV1) (f : Option (List ℚ)) :
    (irrigationSection s f).action ≠ "IRRIGATE_NOW" →
      (irrigationSection s f).liters = 0 := by
  cases hsr : s.sensor_readings with
  | none => intro _; simp [irrigationSection, hsr]
  | some sr =>
    simp only [irrigationSection, hsr]
    split_ifs <;> intro hne <;> first | rfl | exact absurd rfl hne

/-- The N/P/K dose is zero in every branch of the fertilizer section other
than APPLY. -/
theorem fertilizerSection_zero_dose (cp : ℚ → ℚ → ℚ → ℚ → ℚ → String → String)
    (s : FieldSnapshotV1) :
    (fertilizerSection cp s).action ≠ "APPLY" →
      (fertilizerSection cp s).n_rec = 0 ∧ (fertilizerSection cp s).p_rec = 0 ∧
      (fertilizerSection cp s).k_rec = 0 := by
  cases hsr : s.sensor_readings with
  | none => intro _; simp [fertilizerSection, hsr]
  | some sr =>
    simp only [fertilizerSection, hsr]
    split_ifs <;> intro hne <;>
      first | exact ⟨rfl, rfl, rfl⟩ | exact absurd rfl hne

/-- C10: in every recommendation the engine returns,
`irrigation_liters_per_acre` is 0.0 unless the irrigation action is
IRRIGATE_NOW (DELAY, NO_ACTION and UNKNOWN always carry 0.0 liters), and the
fertilizer N/P/K dose is (0, 0, 0) unless the fertilizer action is APPLY. -/
theorem zero_dose_invariant_c10 (cp : ℚ → ℚ → ℚ → ℚ → ℚ → String → String)
    (s : FieldSnapshotV1) (f h : Option (List ℚ)) :
    ((generate_recommendation_logic cp s f h).irrigation.action ≠ "IRRIGATE_NOW" →
      (generate_recommendation_logic cp s f h).irrigation.liters_per_acre = 0) ∧
    ((generate_recommendation_logic cp s f h).fertilizer.action ≠ "APPLY" →
      (generate_recommendation_logic cp s f h).fertilizer.n_kg_acre = 0 ∧
      (generate_recommendation_logic cp s f h).fertilizer.p_kg_acre = 0 ∧
      (generate_recommendation_logic cp s f h).fertilizer.k_kg_acre = 0) := by
  rw [gen_irrigation_eq, gen_fertilizer_eq]
  exact ⟨irrigationSection_zero_liters s f, fertilizerSection_zero_dose cp s⟩

/-- Witness for C10: a healthy wheat snapshot yields irrigation NO_ACTION with
0 liters and fertilizer NO_ACTION with a zero dose. -/
theorem zero_dose_invariant_c10_witness :
    (generate_recommendation_logic classifierUnavailable snapHealthyWheat
      none none).irrigation.liters_per_acre = 0 ∧
    (generate_recommendation_logic classifierUnavailable snapHealthyWheat
      none none).fertilizer.n_kg_acre = 0 ∧
    (generate_recommendation_logic classifierUnavailable snapHealthyWheat
      none none).fertilizer.p_kg_acre = 0 ∧
    (generate_recommendation_logic classifierUnavailable snapHealthyWheat
      none none).fertilizer.k_kg_acre = 0 := by
  have h1 := (zero_dose_invariant_c10 classifierUnavailable snapHealthyWheat none none).1
    (by decide)
  have h2 := (zero_dose_invariant_c10 classifierUnavailable snapHealthyWheat none none).2
    (by decide)
  exact ⟨h1, h2.1, h2.2.1, h2.2.2⟩

/-! ### Claim C1: irrigation arbitration order -/

/-- C1: for a snapshot with a sensor reading whose moisture is strictly below
the crop's threshold (crop table, default 30), the decision follows the fixed
arbitration order: `api_rain_24h > 2 ∨ model_rain_24h > 3` gives DELAY with
timing "after rain" and a rationale line citing the API when
`api_rain_24h > 2` and otherwise the AI model; else
`api_rain_24h < 2 ∧ model_rain_48h > 8` gives DELAY with timing "until after
storm"; else IRRIGATE_NOW with timing "now" and the crop-specific volume
(default 400). -/
theorem irrigation_arbitration_c1
    (cp : ℚ → ℚ → ℚ → ℚ → ℚ → String → String)
    (s : FieldSnapshotV1) (f h : Option (List ℚ)) (sr : SensorSummary)
    (hs : s.sensor_readings = some sr)
    (hm : sr.moisture < dictGet MOISTURE_THRESHOLDS (pyLower s.crop) 30) :
    ((rainfallNext24h s).1 > 2 ∨ (extractModelRain f).1 > 3 →
      (generate_recommendation_logic cp s f h).irrigation.action = "DELAY" ∧
      (generate_recommendation_logic cp s f h).irrigation.timing = "after rain" ∧
      ((rainfallNext24h s).1 > 2 →
        "Rain predicted by API - save water" ∈
          (generate_recommendation_logic cp s f h).why) ∧
      (¬ (rainfallNext24h s).1 > 2 →
        "Rain predicted by AI Model - save water" ∈
          (generate_recommendation_logic cp s f h).why)) ∧
    (¬ ((rainfallNext24h s).1 > 2 ∨ (extractModelRain f).1 > 3) →
      (rainfallNext24h s).1 < 2 ∧ (extractModelRain f).2 > 8 →
      (generate_recommendation_logic cp s f h).irrigation.action = "DELAY" ∧
      (generate_recommendation_logic cp s f h).irrigation.timing = "until after storm") ∧
    (¬ ((rainfallNext24h s).1 > 2 ∨ (extractModelRain f).1 > 3) →
      ¬ ((rainfallNext24h s).1 < 2 ∧ (extractModelRain f).2 > 8) →
      (generate_recommendation_logic cp s f h).irrigation.action = "IRRIGATE_NOW" ∧
      (generate_recommendation_logic cp s f h).irrigation.timing = "now" ∧
      (generate_recommendation_logic cp s f h).irrigation.liters_per_acre =
        dictGet IRRIGATION_LITERS (pyLower s.crop) 400) := by
  rw [gen_irrigation_eq, gen_why_eq]
  simp only [irrigationSection, hs]
  rw [if_pos hm]
  refine ⟨?_, ?_, ?_⟩
  · intro hw
    rw [if_pos hw]
    refine ⟨rfl, rfl, ?_, ?_⟩
    · intro hapi
      rw [if_pos hapi]
      simp [List.mem_append]
    · intro hapi
      rw [if_neg hapi]
      simp [List.mem_append]
  · intro hw hst
    rw [if_neg hw, if_pos hst]
    exact ⟨rfl, rfl⟩
  · intro hw hst
    rw [if_neg hw, if_neg hst]
    exact ⟨rfl, rfl, rfl⟩

/-- Witness for C1: a concrete dry wheat snapshot whose API forecast predicts
6 mm within 24 h is delayed, citing the API. -/
theorem irrigation_arbitration_c1_witness :
    (generate_recommendation_logic classifierUnavailable snapDryWheatApiRain
      (some [0, 0, 0]) none).irrigation.action = "DELAY" ∧
    (generate_recommendation_logic classifierUnavailable snapDryWheatApiRain
      (some [0, 0, 0]) none).irrigation.timing = "after rain" ∧
    "Rain predicted by API - save water" ∈
      (generate_recommendation_logic classifierUnavailable snapDryWheatApiRain
        (some [0, 0, 0]) none).why := by
  have hapi : (rainfallNext24h snapDryWheatApiRain).1 > 2 := by
    norm_num [rainfallNext24h, snapDryWheatApiRain]
  have hc := (irrigation_arbitration_c1 classifierUnavailable snapDryWheatApiRain
    (some [0, 0, 0]) none _ rfl (by decide)).1 (Or.inl hapi)
  exact ⟨hc.1, hc.2.1, hc.2.2.1 hapi⟩

/-! ### Claim C2: conflict detection and risk alert -/

/-- Whenever the irrigation section sets a risk alert, that alert string is
also appended to the section's rationale lines. -/
theorem irrigationSection_risk_mem (s : FieldSnapshotV1) (f : Option (List ℚ))
    (a : String) (ha : (irrigationSection s f).risk_alert = some a) :
    a ∈ (irrigationSection s f).why := by
  cases hsr : s.sensor_readings with
  | none => simp [irrigationSection, hsr] at ha
  | some sr =>
    simp only [irrigationSection, hsr] at ha ⊢
    by_cases hm : sr.moisture < dictGet MOISTURE_THRESHOLDS (pyLower s.crop) 30
    · rw [if_pos hm] at ha ⊢
      simp only at ha ⊢
      rw [ha]
      simp [List.mem_append]
    · rw [if_neg hm] at ha
      simp at ha

/-- C2 (amended): for snapshots with a sensor reading whose moisture is below
the crop threshold (the only case in which conflict detection runs),
`risk_alert` is the disagreement message "Uncertain weather: Forecasts
disagree significantly." when `|api_rain_24h - model_rain_24h| > 5`, else the
storm warning "Warning: Heavy rain predicted soon." when
`api_rain_24h < 1 ∧ model_rain_48h > 10`, else absent; at most one alert is
ever set (first match wins) and, when present, it is appended to the
rationale. -/
theorem risk_alert_c2_amended
    (cp : ℚ → ℚ → ℚ → ℚ → ℚ → String → String)
    (s : FieldSnapshotV1) (f h : Option (List ℚ)) (sr : SensorSummary)
    (hs : s.sensor_readings = some sr)
    (hm : sr.moisture < dictGet MOISTURE_THRESHOLDS (pyLower s.crop) 30) :
    (generate_recommendation_logic cp s f h).risk_alert =
      (if |(rainfallNext24h s).1 - (extractModelRain f).1| > 5 then
        some "Uncertain weather: Forecasts disagree significantly."
       else if (rainfallNext24h s).1 < 1 ∧ (extractModelRain f).2 > 10 then
        some "Warning: Heavy rain predicted soon."
       else none) ∧
    (∀ a : String, (generate_recommendation_logic cp s f h).risk_alert = some a →
      a ∈ (generate_recommendation_logic cp s f h).why) := by
  constructor
  · rw [gen_risk_eq]
    simp only [irrigationSection, hs]
    rw [if_pos hm]
  · intro a ha
    rw [gen_risk_eq] at ha
    rw [gen_why_eq]
    exact List.mem_append.mpr (Or.inl (List.mem_append.mpr
      (Or.inr (irrigationSection_risk_mem s f a ha))))

/-- C2 counterexample: a snapshot WITH a sensor reading whose moisture is not
below the threshold, and forecasts disagreeing by more than 5 mm
(api 0 vs model 10): the claim requires the disagreement alert, but the code
leaves `risk_alert` absent, because conflict detection runs only inside the
low-moisture branch. -/
theorem risk_alert_c2_counterexample :
    |(rainfallNext24h snapHealthyWheat).1 -
        (extractModelRain (some [10, 0, 0])).1| > 5 ∧
    snapHealthyWheat.sensor_readings.isSome = true ∧
    (generate_recommendation_logic classifierUnavailable snapHealthyWheat
      (some [10, 0, 0]) none).risk_alert = none := by
  refine ⟨?_, rfl, ?_⟩
  · norm_num [rainfallNext24h, snapHealthyWheat, extractModelRain]
  · decide

/-- Witness for C2 (amended): on a dry wheat snapshot with no API rain and a
model forecast of 10 mm, the disagreement alert is set and appended to the
rationale. -/
theorem risk_alert_c2_amended_witness :
    (generate_recommendation_logic classifierUnavailable snapDryWheat
      (some [10, 0, 0]) none).risk_alert =
      some "Uncertain weather: Forecasts disagree significantly." ∧
    "Uncertain weather: Forecasts disagree significantly." ∈
      (generate_recommendation_logic classifierUnavailable snapDryWheat
        (some [10, 0, 0]) none).why := by
  have hc := risk_alert_c2_amended classifierUnavailable snapDryWheat
    (some [10, 0, 0]) none _ rfl (by decide)
  have hd : |(rainfallNext24h snapDryWheat).1 -
      (extractModelRain (some [10, 0, 0])).1| > 5 := by
    norm_num [rainfallNext24h, snapDryWheat, extractModelRain]
  have h1 : (generate_recommendation_logic classifierUnavailable snapDryWheat
      (some [10, 0, 0]) none).risk_alert =
      some "Uncertain weather: Forecasts disagree significantly." := by
    rw [hc.1, if_pos hd]
  exact ⟨h1, hc.2 _ h1⟩

/-! ### Claim C7: nutrient-threshold lookup resolution -/

/-- C7: the nutrient-threshold lookup is total (a Lean function, never
failing) and deterministic, and after case-folding both keys it resolves
exactly as the spec's three tiers: the exact crop+stage entry when present,
else the crop's "vegetative" entry when the crop is known, else the global
default; moreover every crop in the table does carry a "vegetative" entry, so
the second tier is always well-defined. -/
theorem lookup_thresholds_c7 :
    (∀ crop stage : String,
      get_crop_requirements crop stage = lookup_nutrient_thresholds_spec crop stage) ∧
    (∀ i : Fin CROP_NUTRIENT_REQUIREMENTS.length,
      ((CROP_NUTRIENT_REQUIREMENTS.get i).2.find?
        (fun kv => kv.1 == "vegetative")).isSome = true) := by
  constructor
  · intro crop stage
    unfold get_crop_requirements lookup_nutrient_thresholds_spec dictGet
    cases hc : CROP_NUTRIENT_REQUIREMENTS.find? (fun kv => kv.1 == pyLower crop) with
    | none => simp [hc]
    | some ce =>
      simp only [hc]
      cases hstg : ce.2.find? (fun kv => kv.1 == pyLower stage) with
      | none =>
        simp only [hstg]
        cases hveg : ce.2.find? (fun kv => kv.1 == "vegetative") with
        | none => simp [hveg]
        | some veg => simp [hveg]
      | some st => simp [hstg]
  · decide

/-- Witness for C7: an unknown crop and stage resolve to the same thresholds
under the code's lookup and the spec's three-tier resolution. -/
theorem lookup_thresholds_c7_witness :
    get_crop_requirements "Banana" "odd-stage" =
      lookup_nutrient_thresholds_spec "Banana" "odd-stage" ∧
    get_crop_requirements "WHEAT" "Flowering" =
      lookup_nutrient_thresholds_spec "WHEAT" "Flowering" :=
  ⟨lookup_thresholds_c7.1 "Banana" "odd-stage",
   lookup_thresholds_c7.1 "WHEAT" "Flowering"⟩

/-! ### Claim C4: fertilizer decision independent of the classifier label -/

/-- C4: for any snapshot with a sensor reading, two runs that differ only in
the classifier (hence in its label, including the sentinels "Model Not
Available" and "Analysis Failed") produce identical fertilizer action, N/P/K
dose and timing: the label affects only rationale text, never the decision. -/
theorem fertilizer_classifier_independent_c4
    (cp1 cp2 : ℚ → ℚ → ℚ → ℚ → ℚ → String → String)
    (s : FieldSnapshotV1) (f h : Option (List ℚ))
    (hs : s.sensor_readings.isSome = true) :
    (generate_recommendation_logic cp1 s f h).fertilizer =
      (generate_recommendation_logic cp2 s f h).fertilizer := by
  rw [gen_fertilizer_eq, gen_fertilizer_eq]
  cases hsr : s.sensor_readings with
  | none => rw [hsr] at hs; simp at hs
  | some sr =>
    simp only [fertilizerSection, hsr]
    split_ifs <;> rfl

/-- Witness for C4: the two classifier sentinels give identical fertilizer
decisions on a concrete snapshot with a sensor reading. -/
theorem fertilizer_classifier_independent_c4_witness :
    (generate_recommendation_logic classifierUnavailable snapHealthyWheat
      none none).fertilizer =
      (generate_recommendation_logic classifierFailed snapHealthyWheat
        none none).fertilizer :=
  fertilizer_classifier_independent_c4 classifierUnavailable classifierFailed
    snapHealthyWheat none none rfl

/-! ### Claim C3: the all-zero forecast sentinel -/

/-- C3 (evaluating the code): the engine gives the no-model sentinel
`[0.0, 0.0, 0.0]` exactly the treatment of a genuine zero-rain forecast —
every forecast list whose extracted `(model_rain_24h, model_rain_48h)` pair
equals the sentinel's produces an identical irrigation decision, fertilizer
decision, risk alert, rationale and completeness score (only the raw
`ai_forecast` passthrough differs); and on a concrete moisture-deficit
snapshot with a dry API forecast the sentinel is arbitrated as consensus "no
rain", yielding IRRIGATE_NOW. There is no "forecast unavailable" treatment. -/
theorem sentinel_forecast_c3
    (cp : ℚ → ℚ → ℚ → ℚ → ℚ → String → String)
    (s : FieldSnapshotV1) (h : Option (List ℚ)) (l : List ℚ)
    (hl : extractModelRain (some l) = extractModelRain (some [0, 0, 0])) :
    ((generate_recommendation_logic cp s (some l) h).irrigation =
        (generate_recommendation_logic cp s (some [0, 0, 0]) h).irrigation ∧
      (generate_recommendation_logic cp s (some l) h).fertilizer =
        (generate_recommendation_logic cp s (some [0, 0, 0]) h).fertilizer ∧
      (generate_recommendation_logic cp s (some l) h).risk_alert =
        (generate_recommendation_logic cp s (some [0, 0, 0]) h).risk_alert ∧
      (generate_recommendation_logic cp s (some l) h).why =
        (generate_recommendation_logic cp s (some [0, 0, 0]) h).why ∧
      (generate_recommendation_logic cp s (some l) h).data_completeness =
        (generate_recommendation_logic cp s (some [0, 0, 0]) h).data_completeness) ∧
    (generate_recommendation_logic cp snapDryWheat (some [0, 0, 0])
      none).irrigation.action = "IRRIGATE_NOW" := by
  constructor
  · have hirr : irrigationSection s (some l) = irrigationSection s (some [0, 0, 0]) := by
      simp only [irrigationSection]
      rw [hl]
    refine ⟨?_, rfl, ?_, ?_, rfl⟩
    · rw [gen_irrigation_eq, gen_irrigation_eq, hirr]
    · rw [gen_risk_eq, gen_risk_eq, hirr]
    · rw [gen_why_eq, gen_why_eq, hirr]
  · norm_num [generate_recommendation_logic, irrigationSection, snapDryWheat,
      rainfallNext24h, extractModelRain, dictGet, MOISTURE_THRESHOLDS,
      IRRIGATION_LITERS, List.find?, show pyLower "Wheat" = "wheat" from rfl]
    decide

/-- Witness for C3: a genuine two-day zero-rain forecast and the sentinel
yield the same irrigation decision on a concrete dry snapshot. -/
theorem sentinel_forecast_c3_witness :
    (generate_recommendation_logic classifierUnavailable snapDryWheat
      (some [0, 0]) none).irrigation =
      (generate_recommendation_logic classifierUnavailable snapDryWheat
        (some [0, 0, 0]) none).irrigation :=
  ((sentinel_forecast_c3 classifierUnavailable snapDryWheat none [0, 0]
    (by norm_num [extractModelRain])).1).1

/-! ### Claim C8: adequacy evaluation and deficiency messages -/

/-- A list starts with itself. -/
theorem charsHavePre_append (pat rest : List Char) :
    charsHavePre pat (pat ++ rest) = true := by
  induction pat with
  | nil => rfl
  | cons c cs ih => simp [charsHavePre, ih]

/-- A prefix match survives extending the searched list on the right. -/
theorem charsHavePre_extend (pat s t : List Char)
    (h : charsHavePre pat s = true) : charsHavePre pat (s ++ t) = true := by
  induction pat generalizing s with
  | nil => rfl
  | cons p ps ih =>
    cases s with
    | nil => simp [charsHavePre] at h
    | cons c cs =>
      simp [charsHavePre] at h ⊢
      exact ⟨h.1, ih cs h.2⟩

/-- Every list contains the empty pattern. -/
theorem charsContain_nil_pat (t : List Char) : charsContain t [] = true := by
  cases t <;> rfl

/-- Containment survives prepending one character. -/
theorem charsContain_cons (c : Char) (s pat : List Char)
    (h : charsContain s pat = true) : charsContain (c :: s) pat = true := by
  show (charsHavePre pat (c :: s) || charsContain s pat) = true
  rw [h, Bool.or_true]

/-- A list of the form `pat ++ rest` contains `pat`. -/
theorem charsContain_self_append (pat rest : List Char) :
    charsContain (pat ++ rest) pat = true := by
  match pat with
  | [] => exact charsContain_nil_pat rest
  | p :: ps =>
    show (charsHavePre (p :: ps) ((p :: ps) ++ rest) ||
      charsContain (ps ++ rest) (p :: ps)) = true
    rw [charsHavePre_append, Bool.true_or]

/-- Containment survives prepending any list. -/
theorem charsContain_append_left (pre s pat : List Char)
    (h : charsContain s pat = true) : charsContain (pre ++ s) pat = true := by
  induction pre with
  | nil => exact h
  | cons c cs ih => exact charsContain_cons c _ _ ih

/-- Containment survives appending any list. -/
theorem charsContain_append_right (s t pat : List Char)
    (h : charsContain s pat = true) : charsContain (s ++ t) pat = true := by
  induction s with
  | nil =>
    have hp : pat = [] := by
      cases pat with
      | nil => rfl
      | cons p ps => simp [charsContain, charsHavePre] at h
    rw [hp]
    exact charsContain_nil_pat t
  | cons c cs ih =>
    have h2 : charsHavePre pat (c :: cs) = true ∨ charsContain cs pat = true := by
      have h3 : (charsHavePre pat (c :: cs) || charsContain cs pat) = true := h
      exact (Bool.or_eq_true _ _).mp h3
    rcases h2 with h4 | h4
    · show (charsHavePre pat (c :: (cs ++ t)) || charsContain (cs ++ t) pat) = true
      have h5 := charsHavePre_extend pat (c :: cs) t h4
      rw [show (c :: cs) ++ t = c :: (cs ++ t) from rfl] at h5
      rw [h5, Bool.true_or]
    · exact charsContain_cons c _ _ (ih h4)

/-- `(s ++ t).data = s.data ++ t.data`. -/
theorem string_data_append (s t : String) : (s ++ t).data = s.data ++ t.data := by
  cases s
  cases t
  rfl

/-- A string of the form `a ++ b ++ c` contains `b`. -/
theorem strContains_mid (a b c : String) : strContains (a ++ b ++ c) b = true := by
  unfold strContains
  rw [string_data_append, string_data_append, List.append_assoc]
  exact charsContain_append_left a.data _ _ (charsContain_self_append b.data c.data)

/-- A string of the form `a ++ b` contains `b`. -/
theorem strContains_end (a b : String) : strContains (a ++ b) b = true := by
  unfold strContains
  rw [string_data_append]
  have h := charsContain_self_append b.data []
  rw [List.append_nil] at h
  exact charsContain_append_left a.data _ _ h

/-- Containment survives appending on the right. -/
theorem strContains_extend (s t pat : String)
    (h : strContains s pat = true) : strContains (s ++ t) pat = true := by
  unfold strContains at h ⊢
  rw [string_data_append]
  exact charsContain_append_right s.data t.data pat.data h

/-- A Boolean-negated `decide` guard is the propositional guard with its
branches swapped. -/
theorem if_not_decide {c : Prop} [Decidable c] (A : List String) :
    (if !decide c then A else []) = (if c then [] else A) := by
  by_cases h : c <;> simp [h]

/-- C8 (amended): adequacy of N, P, K and moisture holds exactly when the
measured value is `≥` its threshold, and of pH exactly when it lies in the
inclusive range; deficiency messages appear only for failing checks, in the
fixed order N, P, K, pH, moisture; the N/P/K messages carry the measured
value and the violated threshold, while the pH and moisture messages carry
only the measured value (not the violated range or threshold); the result
includes the thresholds used. -/
theorem adequacy_c8_amended (crop stage : String) (n p k ph moisture : ℚ) :
    (check_nutrient_adequacy crop stage n p k ph moisture).requirements =
      get_crop_requirements crop stage ∧
    ((check_nutrient_adequacy crop stage n p k ph moisture).n_adequate = true ↔
      n ≥ ((get_crop_requirements crop stage).n_min : ℚ)) ∧
    ((check_nutrient_adequacy crop stage n p k ph moisture).p_adequate = true ↔
      p ≥ ((get_crop_requirements crop stage).p_min : ℚ)) ∧
    ((check_nutrient_adequacy crop stage n p k ph moisture).k_adequate = true ↔
      k ≥ ((get_crop_requirements crop stage).k_min : ℚ)) ∧
    ((check_nutrient_adequacy crop stage n p k ph moisture).ph_adequate = true ↔
      ((get_crop_requirements crop stage).ph_low ≤ ph ∧
        ph ≤ (get_crop_requirements crop stage).ph_high)) ∧
    ((check_nutrient_adequacy crop stage n p k ph moisture).moisture_adequate = true ↔
      moisture ≥ ((get_crop_requirements crop stage).moisture_min : ℚ)) ∧
    (check_nutrient_adequacy crop stage n p k ph moisture).deficiencies =
      (if n ≥ ((get_crop_requirements crop stage).n_min : ℚ) then [] else
        ["Nitrogen is low (" ++ fmtFixed 0 n ++ " vs " ++
          toString (get_crop_requirements crop stage).n_min ++ " kg/ha)"]) ++
      (if p ≥ ((get_crop_requirements crop stage).p_min : ℚ) then [] else
        ["Phosphorus is low (" ++ fmtFixed 0 p ++ " vs " ++
          toString (get_crop_requirements crop stage).p_min ++ " kg/ha)"]) ++
      (if k ≥ ((get_crop_requirements crop stage).k_min : ℚ) then [] else
        ["Potassium is low (" ++ fmtFixed 0 k ++ " vs " ++
          toString (get_crop_requirements crop stage).k_min ++ " kg/ha)"]) ++
      (if ((get_crop_requirements crop stage).ph_low ≤ ph ∧
            ph ≤ (get_crop_requirements crop stage).ph_high) then []
       else if ph < (get_crop_requirements crop stage).ph_low then
        ["Soil is too acidic (pH " ++ fmtFixed 1 ph ++ ")"]
       else ["Soil is too alkaline (pH " ++ fmtFixed 1 ph ++ ")"]) ++
      (if moisture ≥ ((get_crop_requirements crop stage).moisture_min : ℚ) then [] else
        ["Soil moisture is low (" ++ fmtFixed 0 moisture ++ "%)"]) ∧
    strContains ("Nitrogen is low (" ++ fmtFixed 0 n ++ " vs " ++
        toString (get_crop_requirements crop stage).n_min ++ " kg/ha)")
      (fmtFixed 0 n) = true ∧
    strContains ("Nitrogen is low (" ++ fmtFixed 0 n ++ " vs " ++
        toString (get_crop_requirements crop stage).n_min ++ " kg/ha)")
      (toString (get_crop_requirements crop stage).n_min) = true ∧
    strContains ("Phosphorus is low (" ++ fmtFixed 0 p ++ " vs " ++
        toString (get_crop_requirements crop stage).p_min ++ " kg/ha)")
      (fmtFixed 0 p) = true ∧
    strContains ("Phosphorus is low (" ++ fmtFixed 0 p ++ " vs " ++
        toString (get_crop_requirements crop stage).p_min ++ " kg/ha)")
      (toString (get_crop_requirements crop stage).p_min) = true ∧
    strContains ("Potassium is low (" ++ fmtFixed 0 k ++ " vs " ++
        toString (get_crop_requirements crop stage).k_min ++ " kg/ha)")
      (fmtFixed 0 k) = true ∧
    strContains ("Potassium is low (" ++ fmtFixed 0 k ++ " vs " ++
        toString (get_crop_requirements crop stage).k_min ++ " kg/ha)")
      (toString (get_crop_requirements crop stage).k_min) = true ∧
    strContains ("Soil is too acidic (pH " ++ fmtFixed 1 ph ++ ")")
      (fmtFixed 1 ph) = true ∧
    strContains ("Soil is too alkaline (pH " ++ fmtFixed 1 ph ++ ")")
      (fmtFixed 1 ph) = true ∧
    strContains ("Soil moisture is low (" ++ fmtFixed 0 moisture ++ "%)")
      (fmtFixed 0 moisture) = true := by
  refine ⟨rfl, ?_, ?_, ?_, ?_, ?_, ?_, ?_, ?_, ?_, ?_, ?_, ?_, ?_, ?_, ?_⟩
  · simp only [check_nutrient_adequacy]
    exact decide_eq_true_iff
  · simp only [check_nutrient_adequacy]
    exact decide_eq_true_iff
  · simp only [check_nutrient_adequacy]
    exact decide_eq_true_iff
  · simp only [check_nutrient_adequacy]
    exact decide_eq_true_iff
  · simp only [check_nutrient_adequacy]
    exact decide_eq_true_iff
  · simp only [check_nutrient_adequacy]
    simp only [if_not_decide]
  · exact strContains_extend _ _ _ (strContains_extend _ _ _
      (strContains_extend _ _ _ (strContains_end "Nitrogen is low (" (fmtFixed 0 n))))
  · exact strContains_mid ("Nitrogen is low (" ++ fmtFixed 0 n ++ " vs ")
      (toString (get_crop_requirements crop stage).n_min) " kg/ha)"
  · exact strContains_extend _ _ _ (strContains_extend _ _ _
      (strContains_extend _ _ _ (strContains_end "Phosphorus is low (" (fmtFixed 0 p))))
  · exact strContains_mid ("Phosphorus is low (" ++ fmtFixed 0 p ++ " vs ")
      (toString (get_crop_requirements crop stage).p_min) " kg/ha)"
  · exact strContains_extend _ _ _ (strContains_extend _ _ _
      (strContains_extend _ _ _ (strContains_end "Potassium is low (" (fmtFixed 0 k))))
  · exact strContains_mid ("Potassium is low (" ++ fmtFixed 0 k ++ " vs ")
      (toString (get_crop_requirements crop stage).k_min) " kg/ha)"
  · exact strContains_extend _ _ _ (strContains_end "Soil is too acidic (pH " (fmtFixed 1 ph))
  · exact strContains_extend _ _ _ (strContains_end "Soil is too alkaline (pH " (fmtFixed 1 ph))
  · exact strContains_extend _ _ _ (strContains_end "Soil moisture is low (" (fmtFixed 0 moisture))

/-- C8 counterexample: at wheat/vegetative with n=300, p=15, k=120, pH 4,
moisture 30, only the pH check fails; the claim requires the message to carry
the violated range (6.0, 7.5), but the emitted message
"Soil is too acidic (pH 4.0)" carries only the measured value: it contains
no digit of either bound. -/
theorem adequacy_c8_counterexample :
    (check_nutrient_adequacy "wheat" "vegetative" 300 15 120 4 30).deficiencies =
      ["Soil is too acidic (pH 4.0)"] ∧
    (check_nutrient_adequacy "wheat" "vegetative" 300 15 120 4 30).requirements.ph_low
      = 6 ∧
    (check_nutrient_adequacy "wheat" "vegetative" 300 15 120 4 30).requirements.ph_high
      = mkRat 15 2 ∧
    strContains "Soil is too acidic (pH 4.0)" "6" = false ∧
    strContains "Soil is too acidic (pH 4.0)" "7" = false ∧
    strContains "Soil is too acidic (pH 4.0)" "5" = false := by
  decide

/-- Witness for C8 (amended) at wheat/vegetative with a failing pH: the
deficiency list is exactly the acidic-pH message. -/
theorem adequacy_c8_amended_witness :
    (check_nutrient_adequacy "wheat" "vegetative" 300 15 120 4 30).deficiencies =
      ["Soil is too acidic (pH 4.0)"] := by
  have h := (adequacy_c8_amended "wheat" "vegetative" 300 15 120 4 30).2.2.2.2.2.2.1
  rw [h]
  decide
